import Mathlib

/-!
Verification of the timeline re-sort widget, the generator shuffle utility and
the build-verification scripts of a personal static website.

The shallow embedding below translates:
* the in-page sort widget of the shorter-works timeline page
  (functions sortUsingNestedText / sortwc / sortdate / sortcolor);
* the final-summary exit logic of the three verification scripts
  (the SEO compliance script, tests/accessibility.js, tests/generators.js);
* the SEO compliance per-page check testHTMLForSEO;
* the alt-text classification of tests/accessibility.js (Test 3);
* the shuffle utility of the writing-prompts generator (modelled from the
  spec, since its page is not part of the sources at hand).

On the sort embedding: the widget sorts the children of the #timeline element
with jQuery's .sort, which is Array.prototype.sort; ECMAScript 2019 and later
require that sort to be stable, and the comparator used here is consistent
(it is induced by a linear order on the extracted key), so the result is the
unique stable sort.  We therefore embed it as Mathlib's stable insertion sort
with the relation le a b := (comparator a b <= 0).
-/

namespace Site

/-- One li.work entry of the #timeline list.  The three sortable keys carried
by each item: the id attribute of its span.date child (a lexicographically
ordered ISO-like token), the parseInt of the text of its span.wc child, and
the id attribute of its span.color child.  The field content stands for the
rest of the li markup, which the sort never inspects. -/
structure Item where
  date : String
  wc : Int
  color : String
  content : String
deriving DecidableEq, Repr

/-- The sort-key choice: sortdate passes span.date with isdate = true,
sortwc passes span.wc with isdate = false, sortcolor passes span.color with
isdate = true. -/
inductive SortKey where
  | byDate
  | byWC
  | byColor
deriving DecidableEq, Repr

/-- JavaScript < on two strings compares code units lexicographically; on
the ASCII tokens of this page that is lexicographic comparison of the
character lists. -/
def jsCharListLt : List Char → List Char → Bool
  | [], [] => false
  | [], _ :: _ => true
  | _ :: _, [] => false
  | a :: as, b :: bs =>
      if a < b then true
      else if b < a then false
      else jsCharListLt as bs

/-- JavaScript string less-than on the two extracted id attributes. -/
def jsStrLt (s t : String) : Bool := jsCharListLt s.data t.data

/-- JavaScript < on the two parseInt results. -/
def intLtB (a b : Int) : Bool := decide (a < b)

/-- The comparator body of sortUsingNestedText, generic in the less-than of
the extracted key type:
return (vA > vB) ? -1 : (vA < vB) ? 1 : 0 (a descending comparator;
vA > vB is lt vB vA). -/
def jsDescCmpBy {β : Type} (lt : β → β → Bool) (vA vB : β) : Int :=
  if lt vB vA then -1 else if lt vA vB then 1 else 0

/-- The comparator of sortUsingNestedText applied to two items: with
isdate = true it compares the id attribute of the selected span (a string,
compared with JavaScript string less-than); with isdate = false it compares
parseInt of the span text (a number). -/
def jsCmp (k : SortKey) (a b : Item) : Int :=
  match k with
  | .byDate => jsDescCmpBy jsStrLt a.date b.date
  | .byWC => jsDescCmpBy intLtB a.wc b.wc
  | .byColor => jsDescCmpBy jsStrLt a.color b.color

/-- a precedes-or-ties b under the comparator: the JS comparator returns
a non-positive number on (a, b). -/
def itemLe (k : SortKey) (a b : Item) : Prop := jsCmp k a b ≤ 0

instance (k : SortKey) : DecidableRel (itemLe k) :=
  fun a b => inferInstanceAs (Decidable (jsCmp k a b ≤ 0))

/-- The pure reordering performed by sortUsingNestedText on the children of
the parent: the ECMAScript stable sort under the comparator jsCmp, embedded
as a stable insertion sort on itemLe. -/
def resort (k : SortKey) (items : List Item) : List Item :=
  items.insertionSort (itemLe k)

/-- Console output level: the script only ever calls console.log in the sort
path; the verification scripts also use console.warn and console.error. -/
inductive LogLevel where
  | log
  | warn
  | error
deriving DecidableEq, Repr

/-- One console entry. -/
structure LogEntry where
  level : LogLevel
  msg : String
deriving DecidableEq, Repr

/-- The unconditional console.log("hi" + items) of sortUsingNestedText (the
stringified jQuery collection appended to "hi" is abstracted away). -/
def hiEntry : LogEntry := ⟨LogLevel.log, "hi"⟩

/-- sortUsingNestedText as invoked on the page state: the parent argument is
the jQuery result of $(selector) for the #timeline element, so a missing
element gives an empty collection (modelled as none).  children() of an
empty collection is empty, .sort of an empty collection is empty,
console.log("hi" + items) runs unconditionally, and append on an empty
collection is a no-op, so a missing parent leaves the page unchanged.  A
present parent has its children replaced by the sorted children. -/
def sortUsingNestedText (k : SortKey) (parent : Option (List Item)) :
    Option (List Item) × List LogEntry :=
  match parent with
  | none => (none, [hiEntry])
  | some children => (some (resort k children), [hiEntry])

/-- sortwc: sortUsingNestedText($( the timeline ), "li", "span.wc", false);
the rest of the function only toggles CSS visibility and colors. -/
def sortwc (parent : Option (List Item)) : Option (List Item) × List LogEntry :=
  sortUsingNestedText SortKey.byWC parent

/-- sortdate: sortUsingNestedText($( the timeline ), "li", "span.date", true);
the rest of the function only toggles CSS visibility and colors. -/
def sortdate (parent : Option (List Item)) : Option (List Item) × List LogEntry :=
  sortUsingNestedText SortKey.byDate parent

/-! ### Final-summary exit logic of the three verification scripts -/

/-- Final summary of the SEO compliance script:
if (hasErrors) process.exit(1) else if (hasWarnings) process.exit(0)
else process.exit(0). -/
def seoFinalExit (hasErrors hasWarnings : Bool) : Nat :=
  if hasErrors then 1 else if hasWarnings then 0 else 0

/-- Final summary of tests/accessibility.js: same shape as the SEO script. -/
def accessibilityFinalExit (hasErrors hasWarnings : Bool) : Nat :=
  if hasErrors then 1 else if hasWarnings then 0 else 0

/-- Final summary of tests/generators.js: this script keeps no warning flag;
if (hasErrors) process.exit(1) else process.exit(0). -/
def generatorsFinalExit (hasErrors : Bool) : Nat :=
  if hasErrors then 1 else 0

/-! ### The per-page SEO compliance check (testHTMLForSEO) -/

/-- One img element as seen by the checks: its src attribute and its alt
attribute (none when the attribute is absent, matching getAttribute
returning null). -/
structure Img where
  src : String
  alt : Option String
deriving DecidableEq, Repr

/-- JavaScript s.trim() yields the empty string exactly when every character
of s is whitespace; the checks below only ever compare a trim result against
the empty string, so this predicate embeds those uses. -/
def jsTrimIsEmpty (s : String) : Bool := s.data.all Char.isWhitespace

/-- Test 12 of testHTMLForSEO, per image:
if (!alt || alt.trim() === ) the image is counted as missing alt text.
JavaScript !alt is true when alt is null (attribute absent) and also when it
is the empty string. -/
def seoImgAltBad (img : Img) : Bool :=
  match img.alt with
  | none => true
  | some s => s == "" || jsTrimIsEmpty s

/-- The parsed document as queried by testHTMLForSEO: one field per
querySelector the function performs.  Option String fields keep the
attribute/text value whose JavaScript truthiness the check tests; Bool
fields record mere element presence. -/
structure SEOPage where
  /-- content attribute of meta[name="description"], none if no such tag -/
  metaDescription : Option String
  /-- meta[name="viewport"] present -/
  viewport : Bool
  ogTitle : Bool
  ogDesc : Bool
  ogUrl : Bool
  ogImage : Bool
  twitterCard : Bool
  twitterTitle : Bool
  twitterDesc : Bool
  /-- link[rel="canonical"] present -/
  canonical : Bool
  /-- meta[name="theme-color"] present -/
  themeColor : Bool
  /-- textContent of the title tag, none if no title tag -/
  title : Option String
  /-- link[rel="manifest"] present -/
  manifest : Bool
  /-- favicon link present -/
  favicon : Bool
  /-- link[rel="apple-touch-icon"] present -/
  appleTouchIcon : Bool
  /-- JSON-LD script: none if absent, some v with v the JSON.parse success -/
  structuredData : Option Bool
  /-- all img elements of the document -/
  images : List Img
  /-- lang attribute of the html tag, none if absent -/
  htmlLang : Option String
  /-- whether the file is checked as a complete document (Test 13 runs) -/
  isCompleteDoc : Bool
deriving DecidableEq, Repr

/-- Test 1 condition: metaDesc && metaDesc.getAttribute(content) —
the tag exists and its content attribute is truthy (non-empty). -/
def metaDescOk (p : SEOPage) : Bool :=
  match p.metaDescription with
  | none => false
  | some c => c != ""

/-- Test 7 condition: title && title.textContent.trim() — the tag exists and
its trimmed text is truthy (non-empty). -/
def titleOk (p : SEOPage) : Bool :=
  match p.title with
  | none => false
  | some t => !jsTrimIsEmpty t

/-- Test 13 condition: html && html.getAttribute(lang) — a truthy
(non-empty) lang attribute. -/
def langOk (p : SEOPage) : Bool :=
  match p.htmlLang with
  | none => false
  | some s => s != ""

/-- testHTMLForSEO on a parsed document, threading the two global flags in
the order the thirteen checks run.  An error branch (a crossed-out console
message) sets hasErrors; a warning branch sets hasWarnings; other branches
leave both flags alone.  Returns (hasErrors, hasWarnings). -/
def testHTMLForSEO (p : SEOPage) (hasErrors hasWarnings : Bool) : Bool × Bool :=
  -- Test 1: meta description, warning when missing or empty
  let hasWarnings := hasWarnings || !metaDescOk p
  -- Test 2: viewport meta, error when missing
  let hasErrors := hasErrors || !p.viewport
  -- Test 3: Open Graph title+description+url, error when any missing
  let hasErrors := hasErrors || !(p.ogTitle && p.ogDesc && p.ogUrl)
  -- Test 3 (continued): Open Graph image, warning when missing
  let hasWarnings := hasWarnings || !p.ogImage
  -- Test 4: Twitter Card trio, error when any missing
  let hasErrors := hasErrors || !(p.twitterCard && p.twitterTitle && p.twitterDesc)
  -- Test 5: canonical URL, error when missing
  let hasErrors := hasErrors || !p.canonical
  -- Test 6: theme-color meta, warning when missing
  let hasWarnings := hasWarnings || !p.themeColor
  -- Test 7: title tag, error when missing or empty
  let hasErrors := hasErrors || !titleOk p
  -- Test 8: manifest link, warning when missing
  let hasWarnings := hasWarnings || !p.manifest
  -- Test 9: favicon, warning when missing
  let hasWarnings := hasWarnings || !p.favicon
  -- Test 10: apple-touch-icon, warning when missing
  let hasWarnings := hasWarnings || !p.appleTouchIcon
  -- Test 11: JSON-LD block: missing is a warning; present with invalid JSON
  -- is an error
  let hasErrors := hasErrors ||
    (match p.structuredData with
     | none => false
     | some valid => !valid)
  let hasWarnings := hasWarnings || p.structuredData.isNone
  -- Test 12: any image with missing/empty alt text is an error
  let hasErrors := hasErrors || p.images.any seoImgAltBad
  -- Test 13: html lang attribute, error when missing, complete documents only
  let hasErrors := hasErrors || (p.isCompleteDoc && !langOk p)
  (hasErrors, hasWarnings)

/-! ### The alt-text check of tests/accessibility.js (Test 3) -/

/-- How the accessibility check buckets one img element. -/
inductive AltStatus where
  | missingAlt
  | decorative
  | ok
deriving DecidableEq, Repr

/-- Per-image classification in Test 3 of testHTMLForAccessibility:
if (!alt) it is counted in missingAltCount (alt is null when the attribute
is absent, but !alt is also true for the empty string); else if
(alt.trim() === ) it is counted in emptyAltCount, commented as acceptable
for decorative images; otherwise it passes. -/
def classifyAlt (alt : Option String) : AltStatus :=
  match alt with
  | none => AltStatus.missingAlt
  | some s =>
      if s == "" then AltStatus.missingAlt
      else if jsTrimIsEmpty s then AltStatus.decorative
      else AltStatus.ok

/-- The tally after the Test 3 loop: (missingAltCount, emptyAltCount). -/
def accAltCounts (imgs : List Img) : Nat × Nat :=
  imgs.foldl
    (fun acc img =>
      match classifyAlt img.alt with
      | AltStatus.missingAlt => (acc.1 + 1, acc.2)
      | AltStatus.decorative => (acc.1, acc.2 + 1)
      | AltStatus.ok => acc)
    (0, 0)

/-- Whether Test 3 sets the hard-error flag: it does exactly when
missingAltCount is non-zero (images present with count zero passes, an empty
image list is only informational). -/
def accAltSetsError (imgs : List Img) : Bool :=
  (accAltCounts imgs).1 != 0

/-! ### The shuffle utility of the writing-prompts generator -/

/-- Modelled from the spec: the shuffle helper of the writing-prompts
generator page; that page is not among the sources at hand (the test script
tests/generators.js only checks that a function named shuffle is declared on
it).  Per the spec it performs an unbiased random permutation, to be
realised as a Fisher-Yates shuffle; rand abstracts the random draw consumed
at each step, and step fuel equals the number of elements still to place. -/
def shuffleAux {α : Type} (rand : Nat → Nat) : Nat → List α → List α
  | 0, l => l
  | _ + 1, [] => []
  | fuel + 1, x :: xs =>
      let j : Fin (x :: xs).length :=
        ⟨rand fuel % (xs.length + 1), Nat.mod_lt _ (Nat.succ_pos xs.length)⟩
      (x :: xs).get j :: shuffleAux rand fuel ((x :: xs).eraseIdx j.val)

/-- Modelled from the spec: shuffle(seq) draws a random remaining element
into each output position (Fisher-Yates), consuming one random draw per
element of the input. -/
def shuffle {α : Type} (rand : Nat → Nat) (l : List α) : List α :=
  shuffleAux rand l.length l

/-! ### Helper lemmas on the comparator -/

theorem jsCharListLt_eq_of_ties :
    ∀ {a b : List Char}, jsCharListLt a b = false → jsCharListLt b a = false → a = b
  | [], [], _, _ => rfl
  | [], _ :: _, h, _ => by simp [jsCharListLt] at h
  | _ :: _, [], _, h => by simp [jsCharListLt] at h
  | a :: as, b :: bs, h, h2 => by
      rw [jsCharListLt] at h h2
      by_cases hab : a < b
      · simp [hab] at h
      · by_cases hba : b < a
        · simp [hba, hab] at h2
        · have hEq : a = b := le_antisymm (not_lt.mp hba) (not_lt.mp hab)
          subst hEq
          simp [hab] at h h2
          rw [jsCharListLt_eq_of_ties h h2]

theorem jsStrLt_eq_of_ties {s t : String} (h : jsStrLt s t = false)
    (h2 : jsStrLt t s = false) : s = t := by
  cases s; cases t
  exact congrArg String.mk (jsCharListLt_eq_of_ties h h2)

theorem jsCharListLt_irrefl : ∀ (a : List Char), jsCharListLt a a = false
  | [] => rfl
  | a :: as => by
      rw [jsCharListLt]
      simp [jsCharListLt_irrefl as]

/-- The comparator returns 0 exactly when neither key is JS-less-than the
other. -/
theorem jsDescCmpBy_eq_zero {β : Type} (lt : β → β → Bool) (a b : β) :
    jsDescCmpBy lt a b = 0 ↔ lt b a = false ∧ lt a b = false := by
  rw [jsDescCmpBy]
  by_cases h1 : lt b a <;> by_cases h2 : lt a b <;> simp [h1, h2]

/-- Two items that both tie with a third under the comparator tie with each
other: a tie means the extracted keys are equal. -/
theorem jsCmp_eq_zero_trans (k : SortKey) {x y v : Item}
    (hx : jsCmp k x v = 0) (hy : jsCmp k y v = 0) : jsCmp k x y = 0 := by
  cases k <;>
    simp only [jsCmp, jsDescCmpBy_eq_zero] at hx hy ⊢
  · have h1 : x.date = v.date := jsStrLt_eq_of_ties hx.2 hx.1
    have h2 : y.date = v.date := jsStrLt_eq_of_ties hy.2 hy.1
    rw [h1, h2]
    constructor <;> { rw [jsStrLt]; exact jsCharListLt_irrefl _ }
  · simp only [intLtB, decide_eq_false_iff_not, not_lt] at hx hy ⊢
    omega
  · have h1 : x.color = v.color := jsStrLt_eq_of_ties hx.2 hx.1
    have h2 : y.color = v.color := jsStrLt_eq_of_ties hy.2 hy.1
    rw [h1, h2]
    constructor <;> { rw [jsStrLt]; exact jsCharListLt_irrefl _ }

theorem itemLe_of_cmp_eq_zero {k : SortKey} {a b : Item}
    (h : jsCmp k a b = 0) : itemLe k a b := by
  rw [itemLe, h]

/-! ### Helper lemmas on the shuffle -/

theorem get_cons_eraseIdx_perm {α : Type} :
    ∀ (l : List α) (j : Fin l.length), (l.get j :: l.eraseIdx j.val).Perm l
  | _ :: _, ⟨0, _⟩ => List.Perm.refl _
  | a :: as, ⟨i + 1, h⟩ => by
      have ih := get_cons_eraseIdx_perm as ⟨i, by simpa using Nat.lt_of_succ_lt_succ h⟩
      show (as.get _ :: a :: as.eraseIdx i).Perm (a :: as)
      exact (List.Perm.swap a _ _).trans (ih.cons a)

theorem shuffleAux_perm {α : Type} (rand : Nat → Nat) :
    ∀ (fuel : Nat) (l : List α), (shuffleAux rand fuel l).Perm l
  | 0, _ => List.Perm.refl _
  | _ + 1, [] => List.Perm.refl _
  | fuel + 1, x :: xs => by
      have ih := shuffleAux_perm rand fuel
        ((x :: xs).eraseIdx (rand fuel % (xs.length + 1)))
      show ((x :: xs).get _ :: shuffleAux rand fuel _).Perm (x :: xs)
      exact (ih.cons _).trans (get_cons_eraseIdx_perm (x :: xs) _)

/-! ### The claims -/

/-- Claim C1: for every sequence of items and every pair of sort-key choices,
re-sorting and then re-sorting by another key neither loses nor duplicates
items: the multiset of items in the output equals the multiset of items in
the input. -/
theorem resort_resort_multiset_eq (k₁ k₂ : SortKey) (l : List Item) :
    (↑(resort k₂ (resort k₁ l)) : Multiset Item) = (↑l : Multiset Item) :=
  Multiset.coe_eq_coe.mpr
    ((List.perm_insertionSort (itemLe k₂) (resort k₁ l)).trans
      (List.perm_insertionSort (itemLe k₁) l))

/-- Claim C2: resort is a stable sort.  For every reference item v, the
subsequence of items whose extracted key ties with that of v (the comparator
returns 0) is exactly the same, in the same order, before and after sorting:
items with equal keys keep their relative input order. -/
theorem resort_stable (k : SortKey) (v : Item) (l : List Item) :
    (resort k l).filter (fun x => jsCmp k x v == 0) =
      l.filter (fun x => jsCmp k x v == 0) := by
  have hpair : (l.filter (fun x => jsCmp k x v == 0)).Pairwise (itemLe k) := by
    refine List.pairwise_of_forall_mem_list ?_
    intro x hx y hy
    have hx0 : jsCmp k x v = 0 := by
      simpa using List.of_mem_filter hx
    have hy0 : jsCmp k y v = 0 := by
      simpa using List.of_mem_filter hy
    exact itemLe_of_cmp_eq_zero (jsCmp_eq_zero_trans k hx0 hy0)
  have hsub : List.Sublist (l.filter (fun x => jsCmp k x v == 0)) (resort k l) :=
    List.sublist_insertionSort hpair (List.filter_sublist l)
  have h1 : (l.filter (fun x => jsCmp k x v == 0)).filter
      (fun x => jsCmp k x v == 0) = l.filter (fun x => jsCmp k x v == 0) := by
    rw [List.filter_filter]
    simp
  have hsub2 : List.Sublist (l.filter (fun x => jsCmp k x v == 0))
      ((resort k l).filter (fun x => jsCmp k x v == 0)) := by
    have h2 := hsub.filter (fun x => jsCmp k x v == 0)
    rwa [h1] at h2
  have hperm : ((resort k l).filter (fun x => jsCmp k x v == 0)).Perm
      (l.filter (fun x => jsCmp k x v == 0)) :=
    (List.perm_insertionSort (itemLe k) l).filter _
  exact (hsub2.eq_of_length hperm.length_eq.symm).symm

/-- Claim C3: resort is idempotent: a sequence already sorted by a given key
(each adjacent pair already in comparator order) is returned unchanged by
resort with that same key. -/
theorem resort_idempotent (k : SortKey) (l : List Item)
    (h : List.Sorted (itemLe k) l) : resort k l = l :=
  h.insertionSort_eq

/-- Witness for C3: a concrete list already sorted by word count is returned
unchanged. -/
theorem resort_idempotent_witness :
    List.Sorted (itemLe SortKey.byWC)
      [⟨"", 1200, "", ""⟩, ⟨"", 170, "", ""⟩, ⟨"", 90, "", ""⟩]
    ∧ resort SortKey.byWC
        [⟨"", 1200, "", ""⟩, ⟨"", 170, "", ""⟩, ⟨"", 90, "", ""⟩] =
      [⟨"", 1200, "", ""⟩, ⟨"", 170, "", ""⟩, ⟨"", 90, "", ""⟩] :=
  ⟨by decide, resort_idempotent SortKey.byWC _ (by decide)⟩

/-- Claim C4: resort by the word-count key on three items with counts
[170, 1200, 90] yields the items in descending numeric order
[1200, 170, 90]. -/
theorem resort_byWC_170_1200_90 (a b c : Item)
    (ha : a.wc = 170) (hb : b.wc = 1200) (hc : c.wc = 90) :
    resort SortKey.byWC [a, b, c] = [b, a, c] := by
  simp [resort, List.insertionSort, List.orderedInsert, itemLe, jsCmp,
    jsDescCmpBy, intLtB, ha, hb, hc]

/-- Witness for C4 at concrete items. -/
theorem resort_byWC_170_1200_90_witness :
    (⟨"", 170, "", "a"⟩ : Item).wc = 170
    ∧ (⟨"", 1200, "", "b"⟩ : Item).wc = 1200
    ∧ (⟨"", 90, "", "c"⟩ : Item).wc = 90
    ∧ resort SortKey.byWC
        [⟨"", 170, "", "a"⟩, ⟨"", 1200, "", "b"⟩, ⟨"", 90, "", "c"⟩] =
      [⟨"", 1200, "", "b"⟩, ⟨"", 170, "", "a"⟩, ⟨"", 90, "", "c"⟩] :=
  ⟨rfl, rfl, rfl,
    resort_byWC_170_1200_90 ⟨"", 170, "", "a"⟩ ⟨"", 1200, "", "b"⟩
      ⟨"", 90, "", "c"⟩ rfl rfl rfl⟩

/-- Claim C5: resort by the date key on three items with date tokens
[2019-01-01, 2020-09-10, 2018-06-19] yields the items in descending
lexicographic order [2020-09-10, 2019-01-01, 2018-06-19]. -/
theorem resort_byDate_2019_2020_2018 (a b c : Item)
    (ha : a.date = "2019-01-01") (hb : b.date = "2020-09-10")
    (hc : c.date = "2018-06-19") :
    resort SortKey.byDate [a, b, c] = [b, a, c] := by
  have h1 : jsStrLt "2019-01-01" "2020-09-10" = true := by decide
  have h2 : jsStrLt "2020-09-10" "2019-01-01" = false := by decide
  have h3 : jsStrLt "2018-06-19" "2019-01-01" = true := by decide
  have h4 : jsStrLt "2019-01-01" "2018-06-19" = false := by decide
  have h5 : jsStrLt "2018-06-19" "2020-09-10" = true := by decide
  have h6 : jsStrLt "2020-09-10" "2018-06-19" = false := by decide
  simp [resort, List.insertionSort, List.orderedInsert, itemLe, jsCmp,
    jsDescCmpBy, ha, hb, hc, h1, h2, h3, h4, h5, h6]

/-- Witness for C5 at concrete items. -/
theorem resort_byDate_2019_2020_2018_witness :
    (⟨"2019-01-01", 0, "", "a"⟩ : Item).date = "2019-01-01"
    ∧ (⟨"2020-09-10", 0, "", "b"⟩ : Item).date = "2020-09-10"
    ∧ (⟨"2018-06-19", 0, "", "c"⟩ : Item).date = "2018-06-19"
    ∧ resort SortKey.byDate
        [⟨"2019-01-01", 0, "", "a"⟩, ⟨"2020-09-10", 0, "", "b"⟩,
          ⟨"2018-06-19", 0, "", "c"⟩] =
      [⟨"2020-09-10", 0, "", "b"⟩, ⟨"2019-01-01", 0, "", "a"⟩,
        ⟨"2018-06-19", 0, "", "c"⟩] :=
  ⟨rfl, rfl, rfl,
    resort_byDate_2019_2020_2018 ⟨"2019-01-01", 0, "", "a"⟩
      ⟨"2020-09-10", 0, "", "b"⟩ ⟨"2018-06-19", 0, "", "c"⟩ rfl rfl rfl⟩

/-- Counterexample to C6 as stated: at the concrete invocation of the date
sort with the #timeline element missing, no warning-level console entry is
emitted — the only entry is the unconditional console.log of
sortUsingNestedText, so the missing target is not reported by a logged
warning. -/
theorem sortdate_missing_target_no_warning :
    ((sortdate none).2.any fun e => e.level == LogLevel.warn) = false := by
  decide

/-- Claim C6 (amended): when the expected DOM target is missing at
invocation time the operation is a no-op on the page and does not crash,
but the only console output is the unconditional console.log of
sortUsingNestedText, not a warning; resort on an empty child list is
likewise a no-op with no error. -/
theorem sortUsingNestedText_missing_target_noop (k : SortKey) :
    (sortUsingNestedText k none).1 = none
    ∧ (sortUsingNestedText k none).2 = [hiEntry]
    ∧ hiEntry.level = LogLevel.log
    ∧ (sortUsingNestedText k (some [])).1 = some []
    ∧ (sortUsingNestedText k (some [])).2 = [hiEntry] :=
  ⟨rfl, rfl, rfl, rfl, rfl⟩

/-- Claim C7: each verification script exits non-zero exactly when its
hard-error flag is set (the flag only the crossed-out hard checks set), and
a run with only the warning flag set exits zero. -/
theorem verification_exit_iff_hard_failure :
    ∀ hasErrors hasWarnings : Bool,
      (seoFinalExit hasErrors hasWarnings ≠ 0 ↔ hasErrors = true)
      ∧ (accessibilityFinalExit hasErrors hasWarnings ≠ 0 ↔ hasErrors = true)
      ∧ (generatorsFinalExit hasErrors ≠ 0 ↔ hasErrors = true)
      ∧ seoFinalExit false true = 0
      ∧ accessibilityFinalExit false true = 0 := by
  decide

/-- Claim C8: shuffle returns a permutation of its input — same multiset of
elements and same length — for every input, including the empty and
singleton sequences, and for every random source. -/
theorem shuffle_perm {α : Type} (rand : Nat → Nat) (l : List α) :
    (shuffle rand l).Perm l ∧ (shuffle rand l).length = l.length :=
  ⟨shuffleAux_perm rand l.length l, (shuffleAux_perm rand l.length l).length_eq⟩

/-- Claim C9, evaluated at the failing input: the accessibility alt-text
check counts an absent alt attribute as a hard error and accepts a
whitespace-only alt as decorative, as the claim says, but an alt attribute
that is present and empty (the standard decorative-image idiom, and
acceptable per the check's own comment) also falls into the missing-alt
hard-error bucket, because JavaScript !alt is true for the empty string. -/
theorem accessibility_alt_empty_string_is_error :
    classifyAlt none = AltStatus.missingAlt
    ∧ classifyAlt (some " ") = AltStatus.decorative
    ∧ classifyAlt (some "decorative border") = AltStatus.ok
    ∧ classifyAlt (some "") = AltStatus.missingAlt
    ∧ accAltSetsError [⟨"decorative.png", some ""⟩] = true := by
  decide

/-- Claim C10: on a page that passes every hard SEO check, the absence of
the meta description, Open Graph image, theme-color tag, web-manifest link,
favicon, apple-touch-icon and JSON-LD block sets only the warning flag and
never the error flag, so these absences alone exit with code zero. -/
theorem seo_soft_absences_never_error (p : SEOPage)
    (hmd : p.metaDescription = none) (hog : p.ogImage = false)
    (htc : p.themeColor = false) (hman : p.manifest = false)
    (hfav : p.favicon = false) (hati : p.appleTouchIcon = false)
    (hsd : p.structuredData = none)
    (hvp : p.viewport = true) (hogt : p.ogTitle = true)
    (hogd : p.ogDesc = true) (hogu : p.ogUrl = true)
    (htw1 : p.twitterCard = true) (htw2 : p.twitterTitle = true)
    (htw3 : p.twitterDesc = true) (hcan : p.canonical = true)
    (htit : titleOk p = true) (himg : p.images.any seoImgAltBad = false)
    (hlang : (p.isCompleteDoc && !langOk p) = false) :
    testHTMLForSEO p false false = (false, true)
    ∧ seoFinalExit (testHTMLForSEO p false false).1
        (testHTMLForSEO p false false).2 = 0 := by
  have hrun : testHTMLForSEO p false false = (false, true) := by
    rw [testHTMLForSEO]
    simp [metaDescOk, hmd, hog, htc, hman, hfav, hati, hsd, hvp, hogt, hogd,
      hogu, htw1, htw2, htw3, hcan, htit, himg, hlang]
  refine ⟨hrun, ?_⟩
  rw [hrun]
  rfl

/-- A concrete page with all hard checks passing and all seven soft
features absent. -/
def softMissingPage : SEOPage :=
  ⟨none, true, true, true, true, false, true, true, true, true, false,
    some "Title", false, false, false, none, [⟨"cover.jpg", some "cover"⟩],
    some "en", true⟩

/-- Witness for C10 at the concrete page softMissingPage. -/
theorem seo_soft_absences_never_error_witness :
    softMissingPage.metaDescription = none
    ∧ testHTMLForSEO softMissingPage false false = (false, true) :=
  ⟨rfl,
    (seo_soft_absences_never_error softMissingPage rfl rfl rfl rfl rfl rfl rfl
      rfl rfl rfl rfl rfl rfl rfl rfl (by decide) (by decide) (by decide)).1⟩

end Site
